import Mathlib

/-!
Verification development for the core of nl_transport_stuff (src/scrape.py).

The Python module is embedded shallowly:

* Timestamps (ISO-8601 strings parsed by datetime.fromisoformat) are modelled
  as integer seconds since an epoch; all claims under study are about time
  arithmetic after parsing, so records carry already-parsed integer times.
* A Python timedelta is modelled as its total number of seconds (an Int).
* Python int(x) truncates toward zero, so int(td.total_seconds()/60) is
  modelled by Int.tdiv of the seconds by 60.
* Train.delay_mins in the source is total_seconds()/60 with true division
  (a float, not passed through int); it is modelled exactly as a rational.
* Python sorted(key=...) is a stable sort; it is modelled by the Mathlib
  List.insertionSort with the corresponding weak order, which is stable and
  therefore produces the identical list.
* A Python dict is modelled as an association list in insertion order;
  assignment d[k] = v overwrites in place when k is present and appends
  otherwise (pyDictSet). Lookup is the first (unique) matching key.
* A Python set built from a list is modelled as the list of its elements
  with duplicates removed, keeping first occurrences. The CPython set
  iteration order is unspecified; the claims settled here do not depend on
  the order chosen, and this choice is recorded where it matters.
* Raised Python exceptions are modelled by the PyErr inductive below;
  fallible properties return Except PyErr. PyErr also has constructors for
  the two typed errors named by the specification (EmptyInputError,
  UnknownDestinationError) so that statements about them can be expressed;
  the source module defines no such classes and only ever produces the
  builtin ValueError, KeyError and IndexError.
-/

/-- Exceptions observable from the embedded code. The first three are the
Python builtins the source can raise; the last two are the typed errors the
specification names, which no code path in src/scrape.py constructs. -/
inductive PyErr where
  | valueError (msg : String)
  | keyError (key : String)
  | indexError
  | emptyInputError
  | unknownDestinationError (dest : String)
deriving DecidableEq, Repr

instance {ε α : Type} [DecidableEq ε] [DecidableEq α] : DecidableEq (Except ε α) := fun a b =>
  match a, b with
  | .error x, .error y =>
    if h : x = y then .isTrue (by rw [h]) else .isFalse (by intro hc; cases hc; exact h rfl)
  | .error _, .ok _ => .isFalse (by intro hc; cases hc)
  | .ok _, .error _ => .isFalse (by intro hc; cases hc)
  | .ok x, .ok y =>
    if h : x = y then .isTrue (by rw [h]) else .isFalse (by intro hc; cases hc; exact h rfl)

/-- Python dict lookup d[k] on a dict modelled as an association list in
insertion order: the value of the first (and, for dicts, only) pair whose
key matches, none when the key is absent. -/
def pyLookup {α : Type} (d : List (String × α)) (k : String) : Option α :=
  match d with
  | [] => none
  | p :: rest => if p.1 = k then some p.2 else pyLookup rest k

/-- Python dict assignment d[k] = v on a dict modelled as an association
list in insertion order: overwrite the value in place when the key is
already present, append the new pair otherwise. -/
def pyDictSet {α : Type} (d : List (String × α)) (k : String) (v : α) :
    List (String × α) :=
  if (pyLookup d k).isSome then
    d.map (fun p => if p.1 = k then (k, v) else p)
  else
    d ++ [(k, v)]

/-- The direction_to_destination table, src/scrape.py lines 17-34. -/
def direction_to_destination : List (String × List String) :=
  [("Northbound",
      ["Rotterdam Centraal", "Pijnacker Zuid", "Leidschenveen", "Den Haag Centraal"]),
   ("Southbound", ["De Akkers", "Slinge"]),
   ("Eastbound",
      ["Nesselande", "Capelsebrug", "Kralingse Zoom", "Binnenhof", "De Terp"]),
   ("Westbound", ["Parkweg", "Schiedam Centrum"])]

/-- The destination_to_direction dict built by the module-level double loop,
src/scrape.py lines 36-39: for k, v in direction_to_destination.items():
for i in v: destination_to_direction[i] = k. -/
def destination_to_direction : List (String × String) :=
  direction_to_destination.foldl
    (fun acc kv => kv.2.foldl (fun a i => pyDictSet a i kv.1) acc) []

/-- One record of the upstream "Passes" mapping, with its two string fields
and its two timestamp fields already parsed to integer seconds. -/
structure TrainData where
  linePublicNumber : String
  destinationName50 : String
  expectedArrivalTime : Int
  targetArrivalTime : Int
deriving DecidableEq, Repr

/-- Train, src/scrape.py lines 225-272: wraps one upstream departure record. -/
structure Train where
  train_name : String
  train_data : TrainData
deriving DecidableEq, Repr

/-- Train.line, line 239. -/
def Train.line (t : Train) : String := t.train_data.linePublicNumber

/-- Train.destination, line 243. -/
def Train.destination (t : Train) : String := t.train_data.destinationName50

/-- Train.arrival_time, lines 246-249: the parsed ExpectedArrivalTime. -/
def Train.arrival_time (t : Train) : Int := t.train_data.expectedArrivalTime

/-- Train.target_arrival_time, lines 252-255: the parsed TargetArrivalTime. -/
def Train.target_arrival_time (t : Train) : Int := t.train_data.targetArrivalTime

/-- timedelta_to_integer_minutes, lines 275-276:
int(timedelta.total_seconds() / 60), truncation toward zero. -/
def timedelta_to_integer_minutes (td : Int) : Int := Int.tdiv td 60

/-- Train.time_until_departure, lines 258-260: arrival_time minus now,
where now is sampled at call time and is therefore a parameter here. -/
def Train.time_until_departure (now : Int) (t : Train) : Int :=
  t.arrival_time - now

/-- Train.minutes_until_departure, lines 263-264. -/
def Train.minutes_until_departure (now : Int) (t : Train) : Int :=
  timedelta_to_integer_minutes (t.time_until_departure now)

/-- Train.delay, lines 267-268: arrival_time - target_arrival_time, a
timedelta modelled as seconds. -/
def Train.delay (t : Train) : Int := t.arrival_time - t.target_arrival_time

/-- Train.delay_mins, lines 271-272: self.delay.total_seconds() / 60.
True division: the result is an exact rational, not an integer. -/
def Train.delay_mins (t : Train) : ℚ := (t.delay : ℚ) / 60

/-- The sort key of DirectionAtStation.trains, line 128:
key=lambda t: t.arrival_time. -/
def byArrival (a b : Train) : Prop := a.arrival_time ≤ b.arrival_time

/-- The sort key of LineWithDirection.intervals, line 198:
key=lambda t: t.target_arrival_time. -/
def byTarget (a b : Train) : Prop :=
  a.target_arrival_time ≤ b.target_arrival_time

instance : DecidableRel byArrival := fun a b => Int.decLe a.arrival_time b.arrival_time

instance : DecidableRel byTarget := fun a b => Int.decLe a.target_arrival_time b.target_arrival_time

instance : IsTotal Train byArrival := ⟨fun a b => Int.le_total a.arrival_time b.arrival_time⟩

instance : IsTrans Train byArrival := ⟨fun _ _ _ => Int.le_trans⟩

instance : IsTotal Train byTarget := ⟨fun a b => Int.le_total a.target_arrival_time b.target_arrival_time⟩

instance : IsTrans Train byTarget := ⟨fun _ _ _ => Int.le_trans⟩

/-- The payload one timing point fetches from tpc/{code}/departures, keyed
down to payload[timing_point_code]: the Stop.TimingPointName field and the
Passes mapping in its iteration order. -/
structure TPPayload where
  timingPointName : String
  passes : List (String × TrainData)
deriving DecidableEq, Repr

/-- DirectionAtStation.trains, lines 124-129: one Train per entry of the
Passes mapping, sorted ascending by arrival_time. The Python sorted is a
stable sort by the key, so it is modelled by the stable insertionSort. -/
def DirectionAtStation.trains (tp : TPPayload) : List Train :=
  List.insertionSort byArrival (tp.passes.map (fun kv => Train.mk kv.1 kv.2))

/-- LineWithDirection, lines 144-147: a line name bound to its timing
point, the latter modelled by the payload it fetches. -/
structure LineWithDirection where
  line_name : String
  timing_point : TPPayload
deriving DecidableEq, Repr

/-- LineWithDirection.trains, lines 184-188: the trains of the timing
point filtered to this line. -/
def LineWithDirection.trains (l : LineWithDirection) : List Train :=
  (DirectionAtStation.trains l.timing_point).filter
    (fun t => t.line == l.line_name)

/-- LineWithDirection.destinations, lines 190-192:
set([t.destination for t in self.trains]), modelled as the duplicate-free
list of destinations keeping first occurrences. -/
def LineWithDirection.destinations (l : LineWithDirection) : List String :=
  (l.trains.map Train.destination).eraseDups

/-- LineWithDirection.direction, lines 152-154:
destination_to_direction[list(self.destinations)[0]]. Indexing an empty
list raises IndexError; a destination absent from the dict raises the
builtin KeyError of the subscript lookup. -/
def LineWithDirection.direction (l : LineWithDirection) : Except PyErr String :=
  match l.destinations.head? with
  | none => .error .indexError
  | some d =>
    match pyLookup destination_to_direction d with
    | some dir => .ok dir
    | none => .error (.keyError d)

/-- LineWithDirection.next_three_departure_times, lines 173-182: for x in
range(0, 3) append self.trains[x].minutes_until_departure, passing on
IndexError. Out-of-range indices contribute nothing, exactly filterMap
over the three candidate indices. -/
def LineWithDirection.next_three_departure_times (now : Int)
    (l : LineWithDirection) : List Int :=
  (List.range 3).filterMap
    (fun x => (l.trains.get? x).map (Train.minutes_until_departure now))

/-- The gap list built by the loop of LineWithDirection.intervals, lines
195-208: sort the trains of the line by target_arrival_time, then for
each index take the target time of the next train minus that of the
current one, converted by
timedelta_to_integer_minutes; the final IndexError ends the loop, so the
gaps are exactly the consecutive pairs. -/
def LineWithDirection.interval_gaps (l : LineWithDirection) : List Int :=
  let trains_to_use := List.insertionSort byTarget l.trains
  (trains_to_use.zip trains_to_use.tail).map
    (fun p =>
      timedelta_to_integer_minutes
        (p.2.target_arrival_time - p.1.target_arrival_time))

/-- Intervals, lines 212-216: stores the gap list together with its min
and max. -/
structure Intervals where
  intervals : List Int
  minimum : Int
  maximum : Int
deriving DecidableEq, Repr

/-- Intervals.__init__, lines 213-216: minimum = min(intervals) and
maximum = max(intervals). The Python min and max raise ValueError on an
empty sequence, so construction is fallible. -/
def Intervals.init (intervals : List Int) : Except PyErr Intervals :=
  match intervals.min?, intervals.max? with
  | some mn, some mx => .ok ⟨intervals, mn, mx⟩
  | _, _ => .error (.valueError "min() arg is an empty sequence")

/-- Intervals.__repr__, lines 218-222: "min-max" when the two differ,
otherwise the single number. -/
def Intervals.repr (iv : Intervals) : String :=
  if iv.minimum ≠ iv.maximum then
    toString iv.minimum ++ "-" ++ toString iv.maximum
  else
    toString iv.minimum

/-- LineWithDirection.intervals, lines 194-209: the gap list handed to the
Intervals constructor. -/
def LineWithDirection.intervals (l : LineWithDirection) :
    Except PyErr Intervals :=
  Intervals.init l.interval_gaps

/-- DirectionAtStation.lines, lines 118-122: the set of line names over
trains (modelled as the duplicate-free list keeping first occurrences),
one LineWithDirection per name, bound back to this timing point. -/
def DirectionAtStation.lines (tp : TPPayload) : List LineWithDirection :=
  (((DirectionAtStation.trains tp).map Train.line).eraseDups).map
    (fun name => LineWithDirection.mk name tp)

/-- Station, lines 55-96, modelled by the data its fetches observe: the
timing point codes of the stop-area payload, each paired with the payload that
timing point itself fetches from tpc/{code}/departures. -/
structure Station where
  timingPoints : List (String × TPPayload)
deriving DecidableEq, Repr

/-- Station.directions, lines 69-75: one DirectionAtStation per timing
point key of the stop-area payload. -/
def Station.directions (s : Station) : List TPPayload :=
  s.timingPoints.map Prod.snd

/-- Station._all_lines, lines 77-80: yield from the lines of each direction. -/
def Station.all_lines (s : Station) : List LineWithDirection :=
  (s.directions.map DirectionAtStation.lines).flatten

/-- The nested dict built by Station.lines. -/
abbrev StationDict := List (String × List (String × LineWithDirection))

/-- One iteration of the loop in Station.lines, line 86:
lines[line.line_name][line.direction] = line on a defaultdict(dict).
Accessing the outer key materialises an empty inner dict when missing;
evaluating line.direction may raise, which aborts the whole property. -/
def station_lines_update (d : StationDict) (line : LineWithDirection) :
    Except PyErr StationDict := do
  let dir ← line.direction
  let inner := (pyLookup d line.line_name).getD []
  pure (pyDictSet d line.line_name (pyDictSet inner dir line))

/-- The fold of Station.lines over a given iteration sequence of lines. -/
def station_lines_from (d : StationDict) (ls : List LineWithDirection) :
    Except PyErr StationDict :=
  ls.foldlM station_lines_update d

/-- Station.lines, lines 82-87: build the name-to-direction-to-line dict
by iterating the lines of all directions. -/
def Station.lines (s : Station) : Except PyErr StationDict :=
  station_lines_from [] (Station.all_lines s)

/-- Lookup in the nested dict: the inner dict of a line name (empty when
the name is absent) indexed by a direction. -/
def StationDict.lookup2 (d : StationDict) (name dir : String) :
    Option LineWithDirection :=
  pyLookup ((pyLookup d name).getD []) dir

/-- A DirectionAtStation instance as the stop_name cache sees it: its
identity (distinct per constructed object) and its timing point code. -/
structure DASInst where
  instId : Nat
  timing_point_code : String
deriving DecidableEq, Repr

/-- The upstream fetch result at one moment: what tpc/{code}/departures
returns for each timing point code. Successive calls may observe
different values. -/
def FetchEnv : Type := String → TPPayload

/-- DirectionAtStation.stop_name, lines 110-113: a property wrapped in
functools.lru_cache(maxsize=1). The cache is a single entry shared by all
instances, keyed by the instance the unbound method was called on: a hit
returns the stored value untouched; a miss (empty cache or an entry for a
different instance) recomputes from the current fetch result and the new
entry evicts the old one. -/
def DirectionAtStation.stop_name (env : FetchEnv) (inst : DASInst)
    (cache : Option (Nat × String)) : String × Option (Nat × String) :=
  match cache with
  | some kv =>
    if kv.1 = inst.instId then (kv.2, some kv)
    else
      let v := (env inst.timing_point_code).timingPointName
      (v, some (inst.instId, v))
  | none =>
    let v := (env inst.timing_point_code).timingPointName
    (v, some (inst.instId, v))

/-- Run a sequence of stop_name calls, each made by some instance while
the upstream fetch would return the given environment, threading the
shared single-entry cache; returns the observed values in order. -/
def runStopNameCalls (calls : List (DASInst × FetchEnv)) : List String :=
  (calls.foldl
    (fun acc c =>
      let r := DirectionAtStation.stop_name c.2 c.1 acc.2
      (acc.1 ++ [r.1], r.2))
    (([] : List String), (none : Option (Nat × String)))).1

/-- The Trains constructed from the Passes mapping before sorting, line
127: one Train per (pass id, record) entry. -/
def trainsOf (tp : TPPayload) : List Train :=
  tp.passes.map (fun kv => Train.mk kv.1 kv.2)

/-- Strict comparison on expected arrival times, used to state that a
train list with pairwise-distinct expected timestamps has exactly one
sorted arrangement. -/
def byArrivalStrict (a b : Train) : Prop := a.arrival_time < b.arrival_time

instance : IsAntisymm Train byArrivalStrict :=
  ⟨fun _ _ h1 h2 => absurd (lt_trans h1 h2) (lt_irrefl _)⟩

instance : Std.Antisymm (fun (a b : Int) => a ≤ b) :=
  ⟨fun {_ _} h1 h2 => Int.le_antisymm h1 h2⟩

/-- The writes the Station.lines loop performs into the (name, direction)
slot: the lines whose name matches and whose direction resolves to the
given direction, in iteration order. -/
def lineWrites (ls : List LineWithDirection) (name dir : String) :
    List LineWithDirection :=
  ls.filter (fun l => decide (l.line_name = name ∧ l.direction = Except.ok dir))

/-- Fixture: a timing point serving line E four times. Target arrival
times sit at minutes 0, 10, 10, 25 (seconds 600, 0, 1500, 600 in Passes
order, one duplicate), while the expected arrival times 0, 100, 200, 300
deliberately order the trains differently from their targets. -/
def tpE : TPPayload :=
  ⟨"Rotterdam Blijdorp",
   [("p1", ⟨"E", "Slinge", 0, 600⟩),
    ("p2", ⟨"E", "Slinge", 100, 0⟩),
    ("p3", ⟨"E", "Slinge", 200, 1500⟩),
    ("p4", ⟨"E", "Slinge", 300, 600⟩)]⟩

/-- Fixture: line E as observed at tpE. -/
def lineE : LineWithDirection := ⟨"E", tpE⟩

/-- Fixture: a timing point whose single line-E train heads to Rotterdam
Centraal, a Northbound destination. -/
def tpNorth : TPPayload :=
  ⟨"Stop North", [("a", ⟨"E", "Rotterdam Centraal", 0, 0⟩)]⟩

/-- Fixture: a timing point whose single line-E train heads to De Akkers,
a Southbound destination. -/
def tpSouth : TPPayload :=
  ⟨"Stop South", [("b", ⟨"E", "De Akkers", 0, 0⟩)]⟩

/-- Fixture: a stop area with the two timing points above, both reporting
line E. -/
def stationBdp : Station :=
  ⟨[("31008703", tpNorth), ("31008704", tpSouth)]⟩

/-- The nested dict Station.lines builds for stationBdp. -/
def dictBdp : StationDict :=
  [("E",
    [("Northbound", LineWithDirection.mk "E" tpNorth),
     ("Southbound", LineWithDirection.mk "E" tpSouth)])]

/-- Fixture: a line whose sole destination is absent from the
destination_to_direction table. -/
def tpX : TPPayload :=
  ⟨"X Stop", [("a", ⟨"7", "Nowhere Special", 0, 0⟩)]⟩

/-- Fixture: line 7 as observed at tpX. -/
def line7 : LineWithDirection := ⟨"7", tpX⟩

/-- Fixture: a train whose expected arrival is 90 seconds after its
target, so its delay is one and a half minutes. -/
def tr90 : Train := ⟨"t", ⟨"E", "Slinge", 90, 0⟩⟩

/-- Fixture: two line-E trains with distinct expected arrival times. -/
def tpP : TPPayload :=
  ⟨"Stop P", [("a", ⟨"E", "Slinge", 60, 60⟩), ("b", ⟨"E", "Slinge", 0, 0⟩)]⟩

/-- Fixture: the same two departure records as tpP in the opposite
upstream iteration order. -/
def tpPswap : TPPayload :=
  ⟨"Stop P", [("b", ⟨"E", "Slinge", 0, 0⟩), ("a", ⟨"E", "Slinge", 60, 60⟩)]⟩

/-- Fixture: fetch results at three successive moments, each reporting a
different stop name for every timing point code. -/
def envX : FetchEnv := fun _ => ⟨"Stop X", []⟩

/-- Fixture: see envX. -/
def envY : FetchEnv := fun _ => ⟨"Stop Y", []⟩

/-- Fixture: see envX. -/
def envZ : FetchEnv := fun _ => ⟨"Stop Z", []⟩

/-- Fixture: one DirectionAtStation instance. -/
def dasA : DASInst := ⟨0, "31008703"⟩

/-- Fixture: a second, distinct DirectionAtStation instance. -/
def dasB : DASInst := ⟨1, "31008704"⟩

/-- Lookup after overwriting the value stored at key k in place. -/
theorem pyLookup_map_overwrite {α : Type} (d : List (String × α)) (k k' : String) (v : α) :
    pyLookup (d.map (fun p => if p.1 = k then (k, v) else p)) k'
      = if k' = k ∧ (pyLookup d k').isSome then some v else pyLookup d k' := by
  induction d with
  | nil => simp [pyLookup]
  | cons p d ih =>
    rcases p with ⟨a, b⟩
    by_cases h1 : a = k
    · subst h1
      by_cases h2 : a = k'
      · subst h2; simp [pyLookup]
      · simp [pyLookup, h2, ih, fun hh : k' = a => h2 hh.symm]
    · by_cases h2 : a = k'
      · subst h2
        simp [pyLookup, fun hh : a = k => h1 hh, ih]
      · simp [pyLookup, h1, h2, ih]

/-- Lookup after appending one fresh pair at the end. -/
theorem pyLookup_append_single {α : Type} (d : List (String × α)) (k k' : String) (v : α) :
    pyLookup (d ++ [(k, v)]) k'
      = if (pyLookup d k').isSome then pyLookup d k'
        else if k = k' then some v else none := by
  induction d with
  | nil => simp [pyLookup]
  | cons p d ih =>
    rcases p with ⟨a, b⟩
    by_cases h2 : a = k' <;> simp [pyLookup, h2, ih]

/-- Dict assignment stores the assigned value at the assigned key. -/
theorem pyLookup_pyDictSet_self {α : Type} (d : List (String × α)) (k : String) (v : α) :
    pyLookup (pyDictSet d k v) k = some v := by
  unfold pyDictSet
  by_cases h : (pyLookup d k).isSome
  · rw [if_pos h, pyLookup_map_overwrite, if_pos ⟨rfl, h⟩]
  · rw [if_neg h, pyLookup_append_single, if_neg h, if_pos rfl]

/-- Dict assignment leaves every other key untouched. -/
theorem pyLookup_pyDictSet_ne {α : Type} (d : List (String × α)) (k k' : String) (v : α)
    (hne : k' ≠ k) : pyLookup (pyDictSet d k v) k' = pyLookup d k' := by
  unfold pyDictSet
  by_cases h : (pyLookup d k).isSome
  · rw [if_pos h, pyLookup_map_overwrite, if_neg (by rintro ⟨hh, _⟩; exact hne hh)]
  · rw [if_neg h, pyLookup_append_single]
    by_cases h2 : (pyLookup d k').isSome
    · rw [if_pos h2]
    · rw [if_neg h2, if_neg (fun hh => hne hh.symm), Option.not_isSome_iff_eq_none.mp h2]

/-- In a sorted list every pair of adjacent elements is related. -/
theorem sorted_zip_tail {α : Type} {r : α → α → Prop} :
    ∀ {s : List α}, List.Sorted r s → ∀ p ∈ s.zip s.tail, r p.1 p.2 := by
  intro s
  induction s with
  | nil => intro _ p hp; simp at hp
  | cons a t ih =>
    intro hs p hp
    cases t with
    | nil => simp at hp
    | cons b t' =>
      rw [List.sorted_cons] at hs
      simp only [List.tail_cons, List.zip_cons_cons, List.mem_cons] at hp
      rcases hp with rfl | hp
      · exact hs.1 b (List.mem_cons_self b t')
      · exact ih hs.2 p hp

/-- In a sorted list every taken element relates to every dropped one. -/
theorem sorted_take_drop {α : Type} {r : α → α → Prop} {s : List α} (hs : List.Sorted r s)
    (n : Nat) : ∀ a ∈ s.take n, ∀ b ∈ s.drop n, r a b := by
  have h := List.take_append_drop n s
  rw [List.Sorted, ← h, List.pairwise_append] at hs
  exact hs.2.2

/-- The loop over range(0, 3) with IndexError passed over equals mapping
over the first three trains. -/
theorem next_three_eq_take (now : Int) (l : LineWithDirection) :
    LineWithDirection.next_three_departure_times now l
      = (l.trains.take 3).map (Train.minutes_until_departure now) := by
  unfold LineWithDirection.next_three_departure_times
  rcases l.trains with _ | ⟨a, _ | ⟨b, _ | ⟨c, rest⟩⟩⟩ <;>
    simp [List.range_succ, List.filterMap_cons]

/-- Specification of min? on integer lists. -/
theorem int_min?_spec {l : List Int} {m : Int} (h : l.min? = some m) :
    m ∈ l ∧ ∀ b ∈ l, m ≤ b :=
  (List.min?_eq_some_iff (fun a => le_refl a) (fun a b => min_choice a b)
    (fun _ _ _ => le_min_iff)).mp h

/-- Specification of max? on integer lists. -/
theorem int_max?_spec {l : List Int} {m : Int} (h : l.max? = some m) :
    m ∈ l ∧ ∀ b ∈ l, b ≤ m :=
  (List.max?_eq_some_iff (fun a => le_refl a) (fun a b => max_choice a b)
    (fun _ _ _ => max_le_iff)).mp h

/-- One Station.lines loop iteration changes exactly the one nested slot
it writes. -/
theorem lookup2_update (d0 : StationDict) (l : LineWithDirection) (dirl name dir : String) :
    StationDict.lookup2
      (pyDictSet d0 l.line_name
        (pyDictSet ((pyLookup d0 l.line_name).getD []) dirl l)) name dir
      = if l.line_name = name ∧ dirl = dir then some l
        else StationDict.lookup2 d0 name dir := by
  unfold StationDict.lookup2
  by_cases h1 : l.line_name = name
  · subst h1
    rw [pyLookup_pyDictSet_self]
    by_cases h2 : dirl = dir
    · subst h2
      rw [if_pos ⟨rfl, rfl⟩]
      simp [pyLookup_pyDictSet_self]
    · rw [if_neg (by rintro ⟨_, hh⟩; exact h2 hh)]
      simp [pyLookup_pyDictSet_ne _ _ _ _ (fun hh => h2 hh.symm)]
  · rw [pyLookup_pyDictSet_ne _ _ _ _ (fun hh => h1 hh.symm),
      if_neg (by rintro ⟨hh, _⟩; exact h1 hh)]

/-- The Station.lines fold realises last-writer-wins: when the fold
succeeds, the nested slot of a (name, direction) pair holds the last line
written into it, and keeps its initial content when nothing wrote to it. -/
theorem station_lines_from_lookup :
    ∀ (ls : List LineWithDirection) (d0 d : StationDict),
      station_lines_from d0 ls = Except.ok d → ∀ name dir,
        StationDict.lookup2 d name dir =
          ((lineWrites ls name dir).getLast?).or (StationDict.lookup2 d0 name dir) := by
  intro ls
  induction ls with
  | nil =>
    intro d0 d h name dir
    simp only [station_lines_from, List.foldlM_nil, pure, Except.pure] at h
    cases h
    simp [lineWrites, Option.or]
  | cons l ls ih =>
    intro d0 d h name dir
    rw [station_lines_from, List.foldlM_cons] at h
    cases hu : station_lines_update d0 l with
    | error e => rw [hu] at h; simp [Bind.bind, Except.bind] at h
    | ok d1 =>
      rw [hu] at h
      have h2 : station_lines_from d1 ls = Except.ok d := h
      unfold station_lines_update at hu
      cases hdir : l.direction with
      | error e => rw [hdir] at hu; simp [Bind.bind, Except.bind, pure, Except.pure] at hu
      | ok dirl =>
        rw [hdir] at hu
        simp only [Bind.bind, Except.bind, pure, Except.pure, Except.ok.injEq] at hu
        rw [ih d1 d h2 name dir]
        subst hu
        rw [lookup2_update]
        by_cases hw : l.line_name = name ∧ l.direction = Except.ok dir
        · have hdd : dirl = dir := by
            rw [hdir] at hw; cases hw.2; rfl
          have hsplit : lineWrites (l :: ls) name dir = l :: lineWrites ls name dir := by
            simp only [lineWrites, List.filter_cons, decide_eq_true_eq, if_pos hw]
          rw [hsplit, if_pos ⟨hw.1, hdd⟩, List.getLast?_cons]
          cases hlast : (lineWrites ls name dir).getLast? with
          | none => simp [hlast, Option.or]
          | some w => simp [hlast, Option.or]
        · have hcond : ¬(l.line_name = name ∧ dirl = dir) := by
            rintro ⟨ha, hb⟩
            exact hw ⟨ha, by rw [hdir, hb]⟩
          have hsplit : lineWrites (l :: ls) name dir = lineWrites ls name dir := by
            simp only [lineWrites, List.filter_cons, decide_eq_true_eq, if_neg hw]
          rw [hsplit, if_neg hcond]

/-- Claim C1, corrected: an interval summary over the empty gap sequence,
which intervals() produces whenever a line has zero or one train, does
fail — but with the untyped ValueError that min() raises on an empty
sequence, not with a typed EmptyInputError. -/
theorem C1_empty_gap_summary_fails_untyped :
    Intervals.init [] = .error (.valueError "min() arg is an empty sequence")
    ∧ ∀ l : LineWithDirection, l.trains.length ≤ 1 →
        LineWithDirection.intervals l
          = .error (.valueError "min() arg is an empty sequence") := by
  constructor
  · rfl
  · intro l h
    have hlen : (List.insertionSort byTarget l.trains).length ≤ 1 := by
      rw [List.length_insertionSort]; exact h
    unfold LineWithDirection.intervals LineWithDirection.interval_gaps
    rcases hs : List.insertionSort byTarget l.trains with _ | ⟨a, _ | ⟨b, t⟩⟩
    · rfl
    · rfl
    · rw [hs] at hlen; simp at hlen

/-- Claim C1 witness: a line with a single train, whose interval
computation fails with the ValueError of the empty min. -/
theorem C1_witness : line7.trains.length ≤ 1
    ∧ LineWithDirection.intervals line7
        = .error (.valueError "min() arg is an empty sequence") :=
  ⟨by decide, C1_empty_gap_summary_fails_untyped.2 line7 (by decide)⟩

/-- Claim C1 counterexample: the failure of summarize_intervals on the
empty sequence is not the typed EmptyInputError the claim names; it is
the ValueError of the builtin min. -/
theorem C1_counterexample :
    Intervals.init [] ≠ .error PyErr.emptyInputError
    ∧ Intervals.init [] = .error (.valueError "min() arg is an empty sequence") :=
  ⟨by decide, rfl⟩

/-- Claim C2 counterexample: a train 90 seconds late has delay_mins equal
to the fraction 3/2, while minutes(expected − target) is the integer 1,
so the two differ. -/
theorem C2_counterexample :
    Train.delay_mins tr90 ≠ ((timedelta_to_integer_minutes (Train.delay tr90) : Int) : ℚ)
    ∧ Train.delay_mins tr90 = 3 / 2
    ∧ timedelta_to_integer_minutes (Train.delay tr90) = 1 := by
  have h1 : timedelta_to_integer_minutes (Train.delay tr90) = 1 := by decide
  refine ⟨?_, ?_, h1⟩
  · rw [h1]
    norm_num [Train.delay_mins, Train.delay, Train.arrival_time,
      Train.target_arrival_time, tr90]
  · norm_num [Train.delay_mins, Train.delay, Train.arrival_time,
      Train.target_arrival_time, tr90]

/-- Claim C2, corrected: delay_mins is the exact rational
(expected − target)/60 — true division, no truncation to whole minutes —
with the sign preserved: positive exactly when the train is late and
negative exactly when it is early. -/
theorem C2_delay_mins_exact (t : Train) :
    t.delay_mins = ((t.arrival_time - t.target_arrival_time : Int) : ℚ) / 60
    ∧ (0 < t.delay_mins ↔ t.target_arrival_time < t.arrival_time)
    ∧ (t.delay_mins < 0 ↔ t.arrival_time < t.target_arrival_time) := by
  have h60 : (0 : ℚ) < 60 := by norm_num
  refine ⟨rfl, ?_, ?_⟩
  · rw [Train.delay_mins, lt_div_iff₀ h60, zero_mul, Train.delay]
    exact_mod_cast sub_pos
  · rw [Train.delay_mins, div_lt_iff₀ h60, zero_mul, Train.delay]
    exact_mod_cast sub_neg

/-- Claim C3: for a line whose trains have target arrival times at minutes
0, 10, 10, 25 (one duplicate) in an expected-time order different from the
target order, intervals() first re-sorts by target arrival time, yields
the consecutive gaps [10, 0, 15], summarises them with minimum 0 and
maximum 15, and renders the summary as the string 0-15. -/
theorem C3_duplicate_time_gaps :
    lineE.trains.map Train.target_arrival_time = [600, 0, 1500, 600]
    ∧ (List.insertionSort byTarget lineE.trains).map Train.target_arrival_time
        = [0, 600, 600, 1500]
    ∧ lineE.interval_gaps = [10, 0, 15]
    ∧ lineE.intervals = Except.ok (Intervals.mk [10, 0, 15] 0 15)
    ∧ Except.map Intervals.repr lineE.intervals = Except.ok "0-15" := by
  decide

/-- Claim C4: for every non-empty integer gap sequence the summary
succeeds, keeps the sequence, bounds every element between its minimum
and its maximum, and renders as the single number when the two coincide
and as min-max when the minimum is strictly smaller. -/
theorem C4_summary_bounds_and_render (l : List Int) (h : l ≠ []) :
    ∃ iv : Intervals, Intervals.init l = Except.ok iv
      ∧ iv.intervals = l
      ∧ (∀ x ∈ l, iv.minimum ≤ x ∧ x ≤ iv.maximum)
      ∧ (iv.minimum = iv.maximum → Intervals.repr iv = toString iv.minimum)
      ∧ (iv.minimum < iv.maximum →
          Intervals.repr iv = toString iv.minimum ++ "-" ++ toString iv.maximum) := by
  cases hmn : l.min? with
  | none => exact absurd (List.min?_eq_none_iff.mp hmn) h
  | some mn =>
  cases hmx : l.max? with
  | none => exact absurd (List.max?_eq_none_iff.mp hmx) h
  | some mx =>
  refine ⟨⟨l, mn, mx⟩, ?_, rfl, ?_, ?_, ?_⟩
  · unfold Intervals.init
    rw [hmn, hmx]
  · intro x hx
    exact ⟨(int_min?_spec hmn).2 x hx, (int_max?_spec hmx).2 x hx⟩
  · intro heq
    have heq2 : mn = mx := heq
    simp [Intervals.repr, heq2]
  · intro hlt
    have hlt2 : mn < mx := hlt
    simp [Intervals.repr, ne_of_lt hlt2]

/-- Claim C4 witness: the summary of the concrete gap sequence [3, 1, 2]. -/
theorem C4_witness :
    ∃ iv : Intervals, Intervals.init [3, 1, 2] = Except.ok iv
      ∧ iv.intervals = [3, 1, 2]
      ∧ (∀ x ∈ [3, 1, 2], iv.minimum ≤ x ∧ x ≤ iv.maximum)
      ∧ (iv.minimum = iv.maximum → Intervals.repr iv = toString iv.minimum)
      ∧ (iv.minimum < iv.maximum →
          Intervals.repr iv = toString iv.minimum ++ "-" ++ toString iv.maximum) :=
  C4_summary_bounds_and_render [3, 1, 2] (by decide)

/-- Claim C5: trains() is sorted non-decreasing by expected arrival time
and is a permutation of the Trains constructed from the payload records;
moreover, when the expected timestamps are pairwise distinct, every
permutation of the input records produces the identical sorted list. -/
theorem C5_trains_sorted_by_expected (tp : TPPayload) :
    List.Sorted byArrival (DirectionAtStation.trains tp)
    ∧ (DirectionAtStation.trains tp).Perm (trainsOf tp)
    ∧ ∀ tp' : TPPayload, tp'.passes.Perm tp.passes →
        (trainsOf tp).Pairwise
          (fun a b => Train.arrival_time a ≠ Train.arrival_time b) →
        DirectionAtStation.trains tp' = DirectionAtStation.trains tp := by
  refine ⟨List.sorted_insertionSort _ _, List.perm_insertionSort _ _, ?_⟩
  intro tp' hperm hdist
  have hperm2 : (trainsOf tp').Perm (trainsOf tp) := hperm.map _
  have hA : (DirectionAtStation.trains tp').Perm (trainsOf tp') :=
    List.perm_insertionSort _ _
  have hB : (DirectionAtStation.trains tp).Perm (trainsOf tp) :=
    List.perm_insertionSort _ _
  have hptotal : (DirectionAtStation.trains tp').Perm (DirectionAtStation.trains tp) :=
    (hA.trans hperm2).trans hB.symm
  have hsym : ∀ {x y : Train},
      Train.arrival_time x ≠ Train.arrival_time y →
      Train.arrival_time y ≠ Train.arrival_time x :=
    fun h hh => h hh.symm
  have hdistA : (DirectionAtStation.trains tp').Pairwise
      (fun a b => Train.arrival_time a ≠ Train.arrival_time b) :=
    (List.Perm.pairwise_iff hsym (hA.trans hperm2)).mpr hdist
  have hdistB : (DirectionAtStation.trains tp).Pairwise
      (fun a b => Train.arrival_time a ≠ Train.arrival_time b) :=
    (List.Perm.pairwise_iff hsym hB).mpr hdist
  have hsortedA : List.Sorted byArrivalStrict (DirectionAtStation.trains tp') :=
    ((List.sorted_insertionSort byArrival _).and hdistA).imp
      (fun hab => lt_of_le_of_ne hab.1 hab.2)
  have hsortedB : List.Sorted byArrivalStrict (DirectionAtStation.trains tp) :=
    ((List.sorted_insertionSort byArrival _).and hdistB).imp
      (fun hab => lt_of_le_of_ne hab.1 hab.2)
  exact List.eq_of_perm_of_sorted hptotal hsortedA hsortedB

/-- Claim C5 witness: the two iteration orders of the same two records
yield the identical sorted train list. -/
theorem C5_witness : DirectionAtStation.trains tpPswap = DirectionAtStation.trains tpP :=
  (C5_trains_sorted_by_expected tpP).2.2 tpPswap (by decide) (by decide)

/-- Claim C6: next_three_departure_times returns at most 3 entries — the
first three of the arrival-time-sorted train list of the line mapped to
minutes until departure — returns exactly 3 when at least 3 trains exist,
returns the available ones otherwise, and the trains it draws from are
the earliest of the line by expected arrival time. -/
theorem C6_next_three_departures (now : Int) (l : LineWithDirection) :
    (LineWithDirection.next_three_departure_times now l).length ≤ 3
    ∧ LineWithDirection.next_three_departure_times now l
        = (l.trains.take 3).map (Train.minutes_until_departure now)
    ∧ (3 ≤ l.trains.length →
        (LineWithDirection.next_three_departure_times now l).length = 3)
    ∧ ∀ a ∈ l.trains.take 3, ∀ b ∈ l.trains.drop 3,
        a.arrival_time ≤ b.arrival_time := by
  have heq := next_three_eq_take now l
  have hsorted : List.Sorted byArrival l.trains := by
    unfold LineWithDirection.trains
    exact List.Pairwise.filter _ (List.sorted_insertionSort byArrival _)
  refine ⟨?_, heq, ?_, ?_⟩
  · rw [heq, List.length_map, List.length_take]
    omega
  · intro h3
    rw [heq, List.length_map, List.length_take]
    omega
  · exact fun a ha b hb => sorted_take_drop hsorted 3 a ha b hb

/-- Claim C6 witness: the four-train line E fixture yields exactly three
next departures. -/
theorem C6_witness : (LineWithDirection.next_three_departure_times 0 lineE).length = 3 :=
  (C6_next_three_departures 0 lineE).2.2.1 (by decide)

/-- Claim C7: for the stop area fixture with two timing points reporting
line E towards Rotterdam Centraal and De Akkers respectively, the nested
lines dict of the station maps E to both a Northbound and a Southbound
entry; and in general the dict built by iterating the lines of all
directions resolves every (line name, direction) slot to the last line
written into it — last writer wins. -/
theorem C7_lines_by_direction :
    (Station.lines stationBdp = Except.ok dictBdp
      ∧ StationDict.lookup2 dictBdp "E" "Northbound"
          = some (LineWithDirection.mk "E" tpNorth)
      ∧ StationDict.lookup2 dictBdp "E" "Southbound"
          = some (LineWithDirection.mk "E" tpSouth))
    ∧ ∀ (ls : List LineWithDirection) (d0 d : StationDict),
        station_lines_from d0 ls = Except.ok d → ∀ name dir,
          StationDict.lookup2 d name dir =
            ((lineWrites ls name dir).getLast?).or
              (StationDict.lookup2 d0 name dir) :=
  ⟨by decide, station_lines_from_lookup⟩

/-- Claim C7 witness: the general last-writer-wins equation instantiated
on the concrete two-timing-point station. -/
theorem C7_witness :
    StationDict.lookup2 dictBdp "E" "Southbound" =
      ((lineWrites (Station.all_lines stationBdp) "E" "Southbound").getLast?).or
        (StationDict.lookup2 [] "E" "Southbound") :=
  C7_lines_by_direction.2 (Station.all_lines stationBdp) [] dictBdp
    (by decide) "E" "Southbound"

/-- Claim C8 counterexample: a destination absent from the static table
makes direction() fail with the untyped KeyError of the dict subscript,
not with a typed UnknownDestinationError. -/
theorem C8_counterexample :
    line7.destinations = ["Nowhere Special"]
    ∧ line7.direction = .error (.keyError "Nowhere Special")
    ∧ line7.direction ≠ .error (.unknownDestinationError "Nowhere Special") := by
  decide

/-- Claim C8, corrected: direction() looks up the first element of the
destination set in the static destination-to-direction table, succeeds
with the mapped compass direction, and fails with the builtin KeyError —
not a typed UnknownDestinationError — when the destination is absent. -/
theorem C8_direction_first_destination (l : LineWithDirection) (d : String)
    (h : l.destinations.head? = some d) :
    (∀ dir, pyLookup destination_to_direction d = some dir →
        l.direction = Except.ok dir)
    ∧ (pyLookup destination_to_direction d = none →
        l.direction = Except.error (PyErr.keyError d)) := by
  constructor
  · intro dir hdir
    unfold LineWithDirection.direction
    rw [h]
    simp [hdir]
  · intro hnone
    unfold LineWithDirection.direction
    rw [h]
    simp [hnone]

/-- Claim C8 witness: line 7 of the fixture fails with the KeyError of
its unknown destination. -/
theorem C8_witness :
    line7.direction = Except.error (PyErr.keyError "Nowhere Special") :=
  (C8_direction_first_destination line7 "Nowhere Special" (by decide)).2 (by decide)

/-- Claim C9 counterexample: the stop name cache holds one entry shared
by all instances, so after a call on a second instance the first
instance recomputes — the third call in the trace is a second call on the
first instance made after the fetch result changed, and it returns the
fresh value Stop Z rather than the first-observed Stop X. -/
theorem C9_counterexample :
    runStopNameCalls [(dasA, envX), (dasB, envY), (dasA, envZ)]
      = ["Stop X", "Stop Y", "Stop Z"]
    ∧ (dasA, envZ).1 = (dasA, envX).1
    ∧ ("Stop Z" : String) ≠ "Stop X" := by
  decide

/-- Claim C9, corrected: stop_name is cached between consecutive calls on
one instance — the second call returns the first-observed value even when
the fetch result changed in between — provided no call on a different
instance intervened to evict the single shared cache entry. -/
theorem C9_consecutive_calls_cached (inst : DASInst) (env1 env2 : FetchEnv)
    (cache : Option (Nat × String)) :
    (DirectionAtStation.stop_name env2 inst
        (DirectionAtStation.stop_name env1 inst cache).2).1
      = (DirectionAtStation.stop_name env1 inst cache).1 := by
  cases cache with
  | none => simp [DirectionAtStation.stop_name]
  | some kv =>
    by_cases h : kv.1 = inst.instId <;>
      simp [DirectionAtStation.stop_name, h]

/-- Claim C10: every gap intervals() computes is non-negative, because
the gaps are consecutive differences taken after sorting ascending by
target arrival time and then truncated toward zero. -/
theorem C10_interval_gaps_nonneg (l : LineWithDirection) :
    ∀ g ∈ l.interval_gaps, 0 ≤ g := by
  intro g hg
  simp only [LineWithDirection.interval_gaps] at hg
  obtain ⟨p, hp, rfl⟩ := List.mem_map.mp hg
  have hs : List.Sorted byTarget (List.insertionSort byTarget l.trains) :=
    List.sorted_insertionSort _ _
  have hle : byTarget p.1 p.2 := sorted_zip_tail hs p hp
  have h0 : 0 ≤ p.2.target_arrival_time - p.1.target_arrival_time := by
    unfold byTarget at hle
    omega
  exact Int.tdiv_nonneg h0 (by norm_num)

/-- Claim C10 witness: the first gap of the line E fixture is a member of
its gap list and is non-negative. -/
theorem C10_witness : (10 : Int) ∈ lineE.interval_gaps ∧ (0 : Int) ≤ 10 :=
  ⟨by decide, C10_interval_gaps_nonneg lineE 10 (by decide)⟩
